import Mathlib

/-!
Verification of the dtensor repository: shallow embeddings of the tensor
metadata layout, shader-generation index arithmetic, the WebGPU evaluation
pipeline's buffer-lifetime bookkeeping, the ShaderIR constructor, the
TensorType conversions and the Mercenary scheduler's message handling,
together with theorems settling the specified properties.
-/

namespace DTensor

/- ---------------------------------------------------------------------
   TensorType conversions (tensor/src/primitives/tensor/tensortype.rs)
   --------------------------------------------------------------------- -/

/-- `TensorType` from tensortype.rs. -/
inductive TensorType where
  | I32
  | U32
  | F32
  | F16
  deriving DecidableEq, Repr

/-- An opaque 32-bit float value; `From<f32> for TensorType` never inspects
the value, so only its presence matters here. -/
structure F32Value where
  bits : Nat
  deriving DecidableEq, Repr

/-- `impl From<i32> for TensorType`: ignores the value, yields `I32`. -/
def tensorTypeFromI32 (_ : Int) : TensorType := TensorType.I32

/-- `impl From<u32> for TensorType`: asserts the value converts to `i32`
(`value ≤ i32::MAX = 2147483647`), panicking with the given message
otherwise, then yields `I32`. A panic is modelled as `Except.error`. -/
def tensorTypeFromU32 (value : Nat) : Except String TensorType :=
  if value ≤ 2147483647 then
    Except.ok TensorType.I32
  else
    Except.error "Unsigned integers are not supported"

/-- `impl From<f32> for TensorType`: ignores the value, yields `F32`. -/
def tensorTypeFromF32 (_ : F32Value) : TensorType := TensorType.F32

/- ---------------------------------------------------------------------
   ShaderIR construction (tensor/src/ir/mlir.rs)
   --------------------------------------------------------------------- -/

/-- `ShaderIROp` from mlir.rs. -/
inductive ShaderIROp where
  | MagicIndex
  | ReduceBegin
  | ReduceEnd
  | ReduceMagic
  | Const
  | Load
  | Store
  | Evaluate
  deriving DecidableEq, Repr

/-- `ShaderIRType` from mlir.rs. -/
inductive ShaderIRType where
  | F32
  | I32
  deriving DecidableEq, Repr

/-- `ShaderIREvaluation` from mlir.rs; float payloads are opaque here. -/
inductive ShaderIREvaluation where
  | F32 (value : F32Value)
  | I32 (value : Int)
  | IDENTITY
  | EXP2
  | LOG2
  | CAST
  | SIN
  | SQRT
  | ABS
  | FLOOR
  | CEIL
  | ADD
  | SUB
  | MULTIPLY
  | DIVIDE
  | MAX
  | MOD
  | EQUAL
  | LESSTHAN
  deriving DecidableEq, Repr

/-- `ShaderIREvaluation::n_dependencies` from mlir.rs. -/
def ShaderIREvaluation.n_dependencies : ShaderIREvaluation → Nat
  | .F32 _ => 0
  | .I32 _ => 0
  | .IDENTITY => 1
  | .EXP2 => 1
  | .LOG2 => 1
  | .CAST => 1
  | .SIN => 1
  | .SQRT => 1
  | .ABS => 1
  | .FLOOR => 1
  | .CEIL => 1
  | .ADD => 2
  | .SUB => 2
  | .MULTIPLY => 2
  | .DIVIDE => 2
  | .MAX => 2
  | .MOD => 2
  | .EQUAL => 2
  | .LESSTHAN => 2

/-- `ShaderIRInternals` (the payload behind the `Arc` in `ShaderIR`). -/
inductive ShaderIR where
  | mk (id : Nat) (op : ShaderIROp) (datatype : ShaderIRType)
      (inputs : List ShaderIR) (evaltype : Option ShaderIREvaluation)

/-- Accessor `ShaderIR::inputs`. -/
def ShaderIR.inputs : ShaderIR → List ShaderIR
  | .mk _ _ _ inputs _ => inputs

/-- Accessor `ShaderIR::evaltype`. -/
def ShaderIR.evaltype : ShaderIR → Option ShaderIREvaluation
  | .mk _ _ _ _ evaltype => evaltype

/-- `ShaderIR::new` from mlir.rs: draws a fresh id from the generator
(passed here as `id`), copies the `inputs` slice, and stores all fields
unchanged.  The source performs no validation whatsoever. -/
def ShaderIR.new (id : Nat) (op : ShaderIROp) (datatype : ShaderIRType)
    (inputs : List ShaderIR) (evaltype : Option ShaderIREvaluation) : ShaderIR :=
  ShaderIR.mk id op datatype inputs evaltype

/- ---------------------------------------------------------------------
   Workgroup dispatch (runtime/src/webgpu.rs, runtime/src/webgpu/pipeline.rs)
   --------------------------------------------------------------------- -/

/-- `WebGPUWorkGroup` from webgpu.rs. -/
structure WebGPUWorkGroup where
  x : Nat
  y : Nat
  z : Nat
  deriving DecidableEq, Repr

/-- `WORKGROUP_SIZE = WebGPUWorkGroup::new(4, 4, 4)` from webgpu.rs. -/
def WORKGROUP_SIZE : WebGPUWorkGroup := ⟨4, 4, 4⟩

/-- The workgroup counts passed to `dispatch_workgroups` in
`webgpu_tensor_pipeline` (pipeline.rs lines 227-231):
`dispatch_workgroups.{x,y,z} / WORKGROUP_SIZE.{x,y,z} + 1`
with flooring (integer) division. -/
def dispatchCounts (w : WebGPUWorkGroup) : WebGPUWorkGroup :=
  ⟨w.x / WORKGROUP_SIZE.x + 1, w.y / WORKGROUP_SIZE.y + 1, w.z / WORKGROUP_SIZE.z + 1⟩

/- ---------------------------------------------------------------------
   Mercenary scheduler (scheduler/mercenary/src/mercenary.rs)
   --------------------------------------------------------------------- -/

/-- `GuildQuestAcknowledgement` values the handler can publish:
`accept(quest_id, worker_id)` or `deny(quest_id)`. -/
inductive Acknowledgement where
  | accept (quest_id : String) (worker_id : String)
  | deny (quest_id : String)
  deriving DecidableEq, Repr

/-- Processing of one decoded quest message inside `Mercenary::handler`
(mercenary.rs lines 80-121).  `satisfies` abstracts
`guild::Resources::satisfies` (the guild crate).  `requirements` is the
quest's optional requirements, `reply` the optional reply subject of the
message.  Returns the satisfaction flag together with the publication the
handler performs, if any: the reply subject paired with the
acknowledgement. -/
def handleQuestMessage {Caps Req : Type} (satisfies : Caps → Req → Bool)
    (capabilities : Caps) (worker_id : String)
    (quest_identifier : String) (requirements : Option Req)
    (reply : Option String) : Bool × Option (String × Acknowledgement) :=
  let satisfied_requirements :=
    match requirements with
    | none => true
    | some quest_requirements => satisfies capabilities quest_requirements
  let publication :=
    match reply with
    | none => none
    | some reply_subject =>
        some (reply_subject,
          if satisfied_requirements then
            Acknowledgement.accept quest_identifier worker_id
          else
            Acknowledgement.deny quest_identifier)
  (satisfied_requirements, publication)

/-- `Mercenary::routine` (mercenary.rs lines 39-58): builds the two channel
handlers, awaits them with `join_all` — whose results are ignored — and
returns `Ok(())`.  The two handler outcomes are passed in as values. -/
def mercenaryRoutine {E : Type} (_broadcastHandler _unicastHandler : Except E Unit) :
    Except E Unit :=
  Except.ok ()

/- ---------------------------------------------------------------------
   TensorView and TensorMetadata (runtime/src/webgpu.rs)
   --------------------------------------------------------------------- -/

/-- Modelled from the spec: `TensorView` (the definition lives in
`tensor/src/primitives/tensor`, outside the provided sources).  Four
sequences of 32-bit unsigned integers — `shape`, `stride`,
`contiguous_stride`, `offset` — of equal length = rank, with
`len = ∏ shape[i]` and `dimension = rank`. -/
structure TensorView where
  shape : List Nat
  stride : List Nat
  contiguous_stride : List Nat
  offset : List Nat
  deriving DecidableEq, Repr

/-- Modelled from the spec: `TensorView::len` is the product of the shape. -/
def TensorView.len (v : TensorView) : Nat := v.shape.prod

/-- Modelled from the spec: `TensorView::dimension` is the rank. -/
def TensorView.dimension (v : TensorView) : Nat := v.shape.length

/-- `TensorMetadata` from webgpu.rs (the `metadata` packed word vector plus
its header fields). -/
structure TensorMetadata where
  length : Nat
  dimension : Nat
  shape_offset : Nat
  stride_offset : Nat
  contiguous_stride_offset : Nat
  offset_offset : Nat
  metadata : List Nat
  deriving DecidableEq, Repr

/-- `impl From<&TensorView> for TensorMetadata` (webgpu.rs lines 69-102):
header fields are `length`, `dimension`, `0`, `dim`, `2·dim`, `3·dim`, and
the packed vector chains the six header words with the four view
sequences. -/
def TensorMetadata.fromView (view : TensorView) : TensorMetadata :=
  let length := view.len
  let dimension := view.dimension
  let shape_offset := 0
  let stride_offset := shape_offset + dimension
  let contiguous_stride_offset := stride_offset + dimension
  let offset_offset := contiguous_stride_offset + dimension
  let metadata :=
    [length, dimension, shape_offset, stride_offset, contiguous_stride_offset,
      offset_offset] ++ view.shape ++ view.stride ++ view.contiguous_stride ++
      view.offset
  ⟨length, dimension, shape_offset, stride_offset, contiguous_stride_offset,
    offset_offset, metadata⟩

/-- Little-endian serialization of one 32-bit word, as `bytemuck::cast_slice`
exposes it byte by byte. -/
def wordBytes (w : Nat) : List Nat :=
  [w % 256, w / 256 % 256, w / 65536 % 256, w / 16777216 % 256]

/-- `TensorMetadata::bytes` (webgpu.rs lines 143-146): the packed `u32`
vector reinterpreted as bytes. -/
def TensorMetadata.bytes (m : TensorMetadata) : List Nat :=
  m.metadata.flatMap wordBytes

/- ---------------------------------------------------------------------
   Binary elementwise builder
   (src/dtensor/primitives/ops/builders/elementary_arithmetic.rs)
   --------------------------------------------------------------------- -/

/-- The `zip_longest` fold at the heart of `compute_output_shape`, acting on
the already-reversed shapes: `Both(&l, &r) => max(l, r)`,
`Left(&l) => l`, `Right(&r) => r`. -/
def zipLongestMax : List Nat → List Nat → List Nat
  | [], b => b
  | a, [] => a
  | l :: a, r :: b => max l r :: zipLongestMax a b

/-- `compute_output_shape` (elementary_arithmetic.rs lines 61-72): reverse
both shapes, combine with `zip_longest` taking the elementwise max and the
present element when one side is exhausted, reverse back. -/
def compute_output_shape (a b : List Nat) : List Nat :=
  (zipLongestMax a.reverse b.reverse).reverse

/-- Evaluation of the WGSL kernel emitted by `generate_wgsl_shader`
(elementary_arithmetic.rs lines 74-101) for the ADD operator: every output
index `i` below the output length computes
`result[i] = left[i % left_metadata.length] + right[i % right_metadata.length]`.
Scalars are modelled as integers, exact for the integral test data. -/
def binaryAddKernelRun (left right : List Int) (outputLength : Nat) : List Int :=
  (List.range outputLength).map fun index =>
    left.getD (index % left.length) 0 + right.getD (index % right.length) 0

/-- The per-element broadcast semantics the spec demands for a rank-2
broadcast of `[1,3]` against `[3,1]`: output element `(r, c)` is
`left[c] + right[r]`.  Stated from the spec's words for comparison with
`binaryAddKernelRun`. -/
def specBroadcastAdd3x3 (left right : List Int) : List Int :=
  (List.range 9).map fun index => left.getD (index % 3) 0 + right.getD (index / 3) 0

/- ---------------------------------------------------------------------
   Reshape kernel strided-offset mapping
   (src/dtensor/primitives/ops/reshape.rs)
   --------------------------------------------------------------------- -/

/-- The loop in the reshape shader (reshape.rs lines 54-59): starting from
`contiguous_offset = index`, `mapped_offset = 0`, each dimension `i` does
`mapped_offset += contiguous_offset / cs[i] * stride[i]` then
`contiguous_offset %= cs[i]`.  The `cs`/`stride` pairs are supplied by the
caller; the generated kernel passes the input view's
`contiguous_stride`/`stride` pairs. -/
def stridedOffsetLoop (index : Nat) (pairs : List (Nat × Nat)) : Nat :=
  (pairs.foldl
    (fun (st : Nat × Nat) p => (st.1 % p.1, st.2 + st.1 / p.1 * p.2))
    (index, 0)).2

/-- The mapped offset the generated reshape kernel computes for output index
`index`: the loop runs over the input's rank, dividing by
`input_contiguous_stride[i]` and multiplying by `input_stride[i]`. -/
def reshapeKernelMappedOffset (inView : TensorView) (index : Nat) : Nat :=
  stridedOffsetLoop index (inView.contiguous_stride.zip inView.stride)

/-- The mapping as the spec words it: division and modulus taken over the
OUTPUT view's contiguous strides, multiplied by the input strides.  Stated
for comparison with `reshapeKernelMappedOffset`. -/
def specStridedOffset (outView inView : TensorView) (index : Nat) : Nat :=
  stridedOffsetLoop index (outView.contiguous_stride.zip inView.stride)

/-- A clean recursion computing the same mapping as the kernel loop:
`mapped(lin, (c,s)::rest) = lin/c*s + mapped(lin % c, rest)`. -/
def stridedOffsetRec : Nat → List (Nat × Nat) → Nat
  | _, [] => 0
  | lin, (c, s) :: rest => lin / c * s + stridedOffsetRec (lin % c) rest

/- ---------------------------------------------------------------------
   Evaluation pipeline lifetime bookkeeping
   (runtime/src/webgpu/pipeline.rs, evaluate_webgpu)
   --------------------------------------------------------------------- -/

/-- `TensorInput` discriminant as the pipeline matches on it, keeping the
ids of the referenced tensors: `ExplicitInput`, `NoOp(parent)`, or
`OperationResult` with the dependency id list the `match` in
`evaluate_webgpu` builds (`[input]`, `[lhs, rhs]`, or `[input]`). -/
inductive TensorInputKind where
  | explicitInput
  | noOp (parent : Nat)
  | operationResult (inputs : List Nat)
  deriving DecidableEq, Repr

/-- One node of the linearized runtime: its id and its data discriminant. -/
structure RuntimeNode where
  id : Nat
  data : TensorInputKind
  deriving DecidableEq, Repr

/-- Modelled from the spec: `GraphDependencies::dependencies` (the
`topograph` module is outside the provided sources) returns the direct
predecessors — none for an `ExplicitInput`, the parent for a `NoOp`, the
operation's inputs for an `OperationResult`, matching the ids
`evaluate_webgpu` itself resolves for each variant. -/
def RuntimeNode.dependencies (n : RuntimeNode) : List Nat :=
  match n.data with
  | .explicitInput => []
  | .noOp parent => [parent]
  | .operationResult inputs => inputs

/-- Insert into an association list with `HashMap::insert` semantics: an
existing key is overwritten, a new key appended. -/
def assocInsert (m : List (Nat × Nat)) (k v : Nat) : List (Nat × Nat) :=
  if m.any (fun p => p.1 = k) then
    m.map (fun p => if p.1 = k then (k, v) else p)
  else
    m ++ [(k, v)]

/-- `HashMap::get` on the association list. -/
def assocGet (m : List (Nat × Nat)) (k : Nat) : Option Nat :=
  (m.find? (fun p => p.1 = k)).map (fun p => p.2)

/-- The `lifetimes` map of `evaluate_webgpu` (pipeline.rs lines 33-41):
for each runtime node in order, for each of its dependencies `d`, record
`(d, node.id)`; collecting into a `HashMap` keeps the last entry per key. -/
def lifetimes (runtime : List RuntimeNode) : List (Nat × Nat) :=
  runtime.foldl
    (fun m n => n.dependencies.foldl (fun m d => assocInsert m d n.id) m)
    []

/-- Membership-preserving insert into the `intermediate_results` key set
(`HashMap::insert` on an already-present key only overwrites the value). -/
def matInsert (mat : List Nat) (i : Nat) : List Nat :=
  if i ∈ mat then mat else mat ++ [i]

/-- `HashMap::remove` on the key set. -/
def matRemove (mat : List Nat) (i : Nat) : List Nat :=
  mat.filter (fun j => j ≠ i)

/-- The per-dependency reclamation loop run after an `OperationResult`
node (pipeline.rs lines 117-123): for each dependency id, if the lifetimes
map names this node as its last use, remove it from
`intermediate_results`. -/
def freeLastUses (lt : List (Nat × Nat)) (nodeId : Nat) (deps : List Nat)
    (mat : List Nat) : List Nat :=
  deps.foldl
    (fun m d => if assocGet lt d = some nodeId then matRemove m d else m)
    mat

/-- Processing of one runtime node by the loop of `evaluate_webgpu`
(pipeline.rs lines 43-127), tracking only the key set of
`intermediate_results`.  `none` models the `unwrap`/`assert!` panics on a
missing dependency.  Only the `OperationResult` branch runs the
reclamation loop. -/
def processNode (lt : List (Nat × Nat)) (mat : List Nat) (n : RuntimeNode) :
    Option (List Nat) :=
  match n.data with
  | .noOp parent =>
      if parent ∈ mat then some (matInsert mat n.id) else none
  | .explicitInput => some (matInsert mat n.id)
  | .operationResult inputs =>
      if inputs.all (fun i => i ∈ mat) then
        some (freeLastUses lt n.id inputs (matInsert mat n.id))
      else
        none

/-- The main loop of `evaluate_webgpu` over a prefix of the runtime,
threading the `intermediate_results` key set. -/
def runPipeline (lt : List (Nat × Nat)) (mat : List Nat) :
    List RuntimeNode → Option (List Nat)
  | [] => some mat
  | n :: rest =>
      match processNode lt mat n with
      | none => none
      | some mat' => runPipeline lt mat' rest

/- ---------------------------------------------------------------------
   Auxiliary definitions used by the theorems
   --------------------------------------------------------------------- -/

/-- Left-pad a shape with leading `1` dimensions up to rank `r`, the spec's
"missing leading dimensions of the lower-rank operand are implicitly 1". -/
def padOne (xs : List Nat) (r : Nat) : List Nat :=
  List.replicate (r - xs.length) 1 ++ xs

/-- A two-node runtime as produced by `evaluate_webgpu` for a materialized
input tensor: the `ExplicitInput` node (id 0) followed by the wrapping
`Identity`/`NoOp` node (id 1), whose only dependency is node 0. -/
def exRuntimeC1 : List RuntimeNode :=
  [⟨0, TensorInputKind.explicitInput⟩, ⟨1, TensorInputKind.noOp 0⟩]

/-- A non-contiguous rank-2 input view: shape `[2,3]`, transpose-like
stride `[1,2]`, contiguous stride `[3,1]`, zero offsets. -/
def exReshapeInView : TensorView := ⟨[2, 3], [1, 2], [3, 1], [0, 0]⟩

/-- The contiguous rank-2 output view of reshaping to `[3,2]`: stride and
contiguous stride `[2,1]`, zero offsets. -/
def exReshapeOutView : TensorView := ⟨[3, 2], [2, 1], [2, 1], [0, 0]⟩

/- ---------------------------------------------------------------------
   Helper lemmas
   --------------------------------------------------------------------- -/

theorem wordBytes_length (w : Nat) : (wordBytes w).length = 4 := rfl

theorem flatMap_wordBytes_length (l : List Nat) :
    (l.flatMap wordBytes).length = 4 * l.length := by
  induction l with
  | nil => rfl
  | cons x xs ih => simp [List.flatMap_cons, wordBytes, ih]; omega

theorem zipLongestMax_length (u v : List Nat) :
    (zipLongestMax u v).length = max u.length v.length := by
  induction u generalizing v with
  | nil => cases v <;> simp [zipLongestMax]
  | cons x xs ih =>
      cases v with
      | nil => simp [zipLongestMax]
      | cons y ys => simp [zipLongestMax, ih]; omega

theorem zipWith_max_replicate_one (v : List Nat) (hv : ∀ x ∈ v, 1 ≤ x) :
    List.zipWith max (List.replicate v.length 1) v = v := by
  induction v with
  | nil => rfl
  | cons y ys ih =>
      have hy : 1 ≤ y := hv y (by simp)
      simp [List.replicate_succ]
      constructor
      · omega
      · exact ih (fun x hx => hv x (by simp [hx]))

theorem zipLongestMax_eq_zipWith (u v : List Nat)
    (hu : ∀ x ∈ u, 1 ≤ x) (hv : ∀ x ∈ v, 1 ≤ x) :
    zipLongestMax u v =
      List.zipWith max
        (u ++ List.replicate (max u.length v.length - u.length) 1)
        (v ++ List.replicate (max u.length v.length - v.length) 1) := by
  induction u generalizing v with
  | nil =>
      have h1 : max ([] : List Nat).length v.length = v.length := by simp
      simp [zipLongestMax, h1, zipWith_max_replicate_one v hv]
  | cons x xs ih =>
      cases v with
      | nil =>
          simp [zipLongestMax]
          have : ∀ w : List Nat, (∀ x ∈ w, 1 ≤ x) →
              w = List.zipWith max (w ++ []) (List.replicate w.length 1) := by
            intro w hw
            induction w with
            | nil => rfl
            | cons z zs ihz =>
                have hz : 1 ≤ z := hw z (by simp)
                simp [List.replicate_succ]
                constructor
                · omega
                · have := ihz (fun x hx => hw x (by simp [hx]))
                  simpa using this
          simpa using this (x :: xs) hu
      | cons y ys =>
          have hxs : ∀ t ∈ xs, 1 ≤ t := fun t ht => hu t (by simp [ht])
          have hys : ∀ t ∈ ys, 1 ≤ t := fun t ht => hv t (by simp [ht])
          simp [zipLongestMax, ih ys hxs hys]
          congr 2 <;> simp [Nat.succ_max_succ]

theorem freeLastUses_not_mem (lt : List (Nat × Nat)) (nodeId : Nat)
    (deps : List Nat) (mat : List Nat) (d : Nat) (hd : d ∉ mat) :
    d ∉ freeLastUses lt nodeId deps mat := by
  induction deps generalizing mat with
  | nil => simpa [freeLastUses] using hd
  | cons x xs ih =>
      simp only [freeLastUses, List.foldl_cons] at *
      by_cases hc : assocGet lt x = some nodeId
      · simp only [hc, if_pos rfl]
        exact ih (matRemove mat x) (by simp [matRemove, List.mem_filter, hd])
      · simp only [if_neg hc]
        exact ih mat hd

theorem freeLastUses_removes (lt : List (Nat × Nat)) (nodeId : Nat)
    (deps : List Nat) (mat : List Nat) (d : Nat) (hmem : d ∈ deps)
    (hlast : assocGet lt d = some nodeId) :
    d ∉ freeLastUses lt nodeId deps mat := by
  induction deps generalizing mat with
  | nil => cases hmem
  | cons x xs ih =>
      simp only [freeLastUses, List.foldl_cons]
      rcases List.mem_cons.mp hmem with hx | hxs
      · subst hx
        simp only [hlast, if_pos rfl]
        by_cases hrest : d ∈ xs
        · exact ih (matRemove mat d) hrest
        · exact freeLastUses_not_mem lt nodeId xs (matRemove mat d) d
            (by simp [matRemove, List.mem_filter])
      · by_cases hc : assocGet lt x = some nodeId
        · simp only [hc, if_pos rfl]
          exact ih (matRemove mat x) hxs
        · simp only [if_neg hc]
          exact ih mat hxs

theorem stridedOffsetLoop_foldl (pairs : List (Nat × Nat)) :
    ∀ lin acc, (pairs.foldl
        (fun (st : Nat × Nat) p => (st.1 % p.1, st.2 + st.1 / p.1 * p.2))
        (lin, acc)).2 = acc + stridedOffsetRec lin pairs := by
  induction pairs with
  | nil => intro lin acc; simp [stridedOffsetRec]
  | cons p rest ih =>
      intro lin acc
      obtain ⟨c, s⟩ := p
      simp only [List.foldl_cons, stridedOffsetRec, ih]
      omega

/- ---------------------------------------------------------------------
   Claim theorems
   --------------------------------------------------------------------- -/

/-- C1 (counterexample): the claim fails for `NoOp` nodes.  In the runtime
`[ExplicitInput (id 0), NoOp 0 (id 1)]` the lifetimes map records node 1 as
the last use of node 0, yet on exit from processing node 1 (the final
pipeline state) node 0 is still in `intermediate_results`, because the
reclamation loop only runs in the `OperationResult` branch. -/
theorem C1_counterexample :
    runPipeline (lifetimes exRuntimeC1) [] exRuntimeC1 = some [0, 1] ∧
    ¬ (∀ d ∈ (RuntimeNode.mk 1 (TensorInputKind.noOp 0)).dependencies,
        assocGet (lifetimes exRuntimeC1) d = some 1 → d ∉ [0, 1]) := by
  decide

/-- C1 (amended): for every node N processed by the pipeline that is not a
`NoOp` — i.e. an `ExplicitInput` (vacuously, having no dependencies) or an
`OperationResult` — on exit from processing N, every dependency D of N with
`last_use[D] == N` has been removed from `intermediate_results`. -/
theorem C1_lastuse_reclaimed (lt : List (Nat × Nat)) (mat : List Nat)
    (n : RuntimeNode) (mat' : List Nat)
    (hk : ∀ p, n.data ≠ TensorInputKind.noOp p)
    (h : processNode lt mat n = some mat') :
    ∀ d ∈ n.dependencies, assocGet lt d = some n.id → d ∉ mat' := by
  obtain ⟨nid, ndata⟩ := n
  intro d hd hlast
  cases ndata with
  | explicitInput => simp [RuntimeNode.dependencies] at hd
  | noOp p => exact absurd rfl (hk p)
  | operationResult inputs =>
      simp only [RuntimeNode.dependencies] at hd
      simp only [processNode] at h
      split at h
      · cases h
        exact freeLastUses_removes lt nid inputs (matInsert mat nid) d hd hlast
      · cases h

/-- C1 (witness): a concrete `OperationResult` node (id 2) consuming the
materialized tensor 0 whose last use it is; processing yields the state
`[1, 2]`, from which 0 has been removed. -/
theorem C1_witness :
    processNode [(0, 2)] [0, 1] ⟨2, TensorInputKind.operationResult [0]⟩ =
      some [1, 2] ∧
    (0 : Nat) ∉ [1, 2] :=
  ⟨by decide,
   C1_lastuse_reclaimed [(0, 2)] [0, 1]
     ⟨2, TensorInputKind.operationResult [0]⟩ [1, 2]
     (fun _ h => nomatch h) (by decide) 0 (by decide) (by decide)⟩

/-- C2: on the broadcast scenario `ADD([1,2,3] with shape [1,3],
[10,20,30] with shape [3,1])` the generated kernel computes
`result[i] = left[i % 3] + right[i % 3]`, yielding
`[11,22,33,11,22,33,11,22,33]` over the correctly computed output shape
`[3,3]`, which differs from the broadcast semantics
`[[11,12,13],[21,22,23],[31,32,33]]` required by the claim. -/
theorem C2_kernel_modulo_indexing :
    compute_output_shape [1, 3] [3, 1] = [3, 3] ∧
    binaryAddKernelRun [1, 2, 3] [10, 20, 30] 9 =
      [11, 22, 33, 11, 22, 33, 11, 22, 33] ∧
    specBroadcastAdd3x3 [1, 2, 3] [10, 20, 30] =
      [11, 12, 13, 21, 22, 23, 31, 32, 33] ∧
    binaryAddKernelRun [1, 2, 3] [10, 20, 30] 9 ≠
      specBroadcastAdd3x3 [1, 2, 3] [10, 20, 30] := by
  decide

/-- C3 (counterexample): for the axis extent 4 the pipeline dispatches
`4 / 4 + 1 = 2` workgroups, not `ceil(4 / 4) = 1`. -/
theorem C3_counterexample :
    dispatchCounts ⟨4, 4, 4⟩ = ⟨2, 2, 2⟩ ∧
    (4 + 4 - 1) / 4 = 1 ∧
    dispatchCounts ⟨4, 4, 4⟩ ≠ ⟨1, 1, 1⟩ := by
  decide

/-- C3 (amended): the pipeline dispatches exactly
`(Lx/4 + 1, Ly/4 + 1, Lz/4 + 1)` workgroups (flooring division), which is
always at least the ceiling `(ceil(Lx/4), ceil(Ly/4), ceil(Lz/4))` the
claim stated, so every output element is covered. -/
theorem C3_dispatch_counts (w : WebGPUWorkGroup) :
    dispatchCounts w = ⟨w.x / 4 + 1, w.y / 4 + 1, w.z / 4 + 1⟩ ∧
    (w.x + 3) / 4 ≤ w.x / 4 + 1 ∧
    (w.y + 3) / 4 ≤ w.y / 4 + 1 ∧
    (w.z + 3) / 4 ≤ w.z / 4 + 1 := by
  refine ⟨rfl, ?_, ?_, ?_⟩ <;> omega

/-- C4: for a rank-`r` view (all four sequences of length `r`) the packed
metadata is `[length, r, 0, r, 2r, 3r]` followed by shape, stride,
contiguous stride and offset, and its byte serialization has length
`4 · (6 + 4·r)`. -/
theorem C4_metadata_layout (v : TensorView)
    (hs : v.stride.length = v.shape.length)
    (hc : v.contiguous_stride.length = v.shape.length)
    (ho : v.offset.length = v.shape.length) :
    (TensorMetadata.fromView v).metadata =
      [v.len, v.dimension, 0, v.dimension, 2 * v.dimension,
        3 * v.dimension] ++ v.shape ++ v.stride ++ v.contiguous_stride ++
        v.offset ∧
    (TensorMetadata.fromView v).bytes.length = 4 * (6 + 4 * v.dimension) := by
  constructor
  · have h2 : 2 * v.dimension = 0 + v.dimension + v.dimension := by omega
    have h3 : 3 * v.dimension = 0 + v.dimension + v.dimension + v.dimension := by
      omega
    simp [TensorMetadata.fromView, h2, h3]
  · show ((TensorMetadata.fromView v).metadata.flatMap wordBytes).length = _
    rw [flatMap_wordBytes_length]
    simp [TensorMetadata.fromView, TensorView.dimension]
    omega

/-- C4 (witness): the contiguous `[2,3]` view yields the 14-word metadata
`[6, 2, 0, 2, 4, 6, 2, 3, 3, 1, 3, 1, 0, 0]` of 56 bytes. -/
theorem C4_witness :
    (TensorMetadata.fromView ⟨[2, 3], [3, 1], [3, 1], [0, 0]⟩).metadata =
      [6, 2, 0, 2, 4, 6, 2, 3, 3, 1, 3, 1, 0, 0] ∧
    (TensorMetadata.fromView ⟨[2, 3], [3, 1], [3, 1], [0, 0]⟩).bytes.length =
      4 * (6 + 4 * 2) := by
  have h := C4_metadata_layout ⟨[2, 3], [3, 1], [3, 1], [0, 0]⟩ rfl rfl rfl
  exact ⟨h.1.trans (by decide), h.2⟩

/-- C5: for every decoded quest message, satisfaction is trivially true
when `requirements` is absent and `capabilities.satisfies(requirements)`
otherwise, and an acknowledgement — `Accept{quest_id, worker_id}` when
satisfied, `Deny{quest_id}` when not — is published exactly when the
message carries a reply subject, on that subject. -/
theorem C5_handler_acknowledgement (Caps Req : Type)
    (satisfies : Caps → Req → Bool) (caps : Caps) (wid qid : String)
    (req : Option Req) (reply : Option String) :
    (handleQuestMessage satisfies caps wid qid req reply).1 =
      (match req with
        | none => true
        | some r => satisfies caps r) ∧
    (handleQuestMessage satisfies caps wid qid req reply).2 =
      reply.map (fun subject =>
        (subject,
          if (handleQuestMessage satisfies caps wid qid req reply).1 then
            Acknowledgement.accept qid wid
          else
            Acknowledgement.deny qid)) ∧
    ((handleQuestMessage satisfies caps wid qid req reply).2.isSome ↔
      reply.isSome) := by
  cases req <;> cases reply <;> simp [handleQuestMessage]

/-- C6 (counterexample): `ShaderIR::new` accepts an `Evaluate` node with
evaltype `ADD` (arity 2) and an empty inputs list; construction succeeds
and the arity invariant is violated. -/
theorem C6_counterexample :
    (ShaderIR.new 0 ShaderIROp.Evaluate ShaderIRType.F32 []
        (some ShaderIREvaluation.ADD)).evaltype =
      some ShaderIREvaluation.ADD ∧
    (ShaderIR.new 0 ShaderIROp.Evaluate ShaderIRType.F32 []
        (some ShaderIREvaluation.ADD)).inputs.length = 0 ∧
    ShaderIREvaluation.ADD.n_dependencies = 2 ∧
    (ShaderIR.new 0 ShaderIROp.Evaluate ShaderIRType.F32 []
        (some ShaderIREvaluation.ADD)).inputs.length ≠
      ShaderIREvaluation.ADD.n_dependencies := by
  refine ⟨rfl, rfl, rfl, ?_⟩
  decide

/-- C6 (amended): `ShaderIR::new` performs no arity check — it always
constructs a node whose inputs and evaltype are exactly those supplied,
even when `len(inputs) ≠ evaltype.n_dependencies()`; no construction is
rejected. -/
theorem C6_new_unchecked (id : Nat) (op : ShaderIROp) (dt : ShaderIRType)
    (inputs : List ShaderIR) (evaltype : Option ShaderIREvaluation) :
    (ShaderIR.new id op dt inputs evaltype).inputs = inputs ∧
    (ShaderIR.new id op dt inputs evaltype).evaltype = evaltype :=
  ⟨rfl, rfl⟩

/-- C7 (counterexample): for the non-contiguous `[2,3]` input view with
stride `[1,2]` reshaped to `[3,2]`, output index 2 maps to input position
4 under the kernel's mapping (input contiguous strides) but to position 1
under the claim's formula (output contiguous strides). -/
theorem C7_counterexample :
    reshapeKernelMappedOffset exReshapeInView 2 = 4 ∧
    specStridedOffset exReshapeOutView exReshapeInView 2 = 1 ∧
    reshapeKernelMappedOffset exReshapeInView 2 ≠
      specStridedOffset exReshapeOutView exReshapeInView 2 := by
  decide

/-- C7 (amended): the reshape kernel maps output index `i` by, for each
input dimension, `mapped += (linear / in.contiguous_stride[i]) *
in.stride[i]; linear %= in.contiguous_stride[i]` — the division and
modulus are taken over the INPUT view's contiguous strides. -/
theorem C7_reshape_mapping (inView : TensorView) (index : Nat) :
    reshapeKernelMappedOffset inView index =
      stridedOffsetRec index (inView.contiguous_stride.zip inView.stride) := by
  unfold reshapeKernelMappedOffset stridedOffsetLoop
  simpa using
    stridedOffsetLoop_foldl (inView.contiguous_stride.zip inView.stride) index 0

/-- C8: the output shape of a binary elementwise operation is the
elementwise maximum of the right-aligned shapes, has rank
`max(rank(a), rank(b))`, and missing leading dimensions of the lower-rank
operand behave as 1. -/
theorem C8_broadcast_output_shape (a b : List Nat)
    (ha : ∀ x ∈ a, 1 ≤ x) (hb : ∀ x ∈ b, 1 ≤ x) :
    (compute_output_shape a b).length = max a.length b.length ∧
    compute_output_shape a b =
      List.zipWith max (padOne a (max a.length b.length))
        (padOne b (max a.length b.length)) := by
  constructor
  · simp [compute_output_shape, zipLongestMax_length]
  · unfold compute_output_shape padOne
    have hu : ∀ x ∈ a.reverse, 1 ≤ x := by simpa using ha
    have hv : ∀ x ∈ b.reverse, 1 ≤ x := by simpa using hb
    rw [zipLongestMax_eq_zipWith _ _ hu hv]
    rw [List.reverse_zipWith (by simp)]
    simp [List.reverse_append, List.reverse_replicate]

/-- C8 (witness): shapes `[1,3]` and `[3,1]` broadcast to `[3,3]` of rank
`max 2 2 = 2`. -/
theorem C8_witness :
    compute_output_shape [1, 3] [3, 1] =
      List.zipWith max (padOne [1, 3] (max 2 2)) (padOne [3, 1] (max 2 2)) ∧
    (compute_output_shape [1, 3] [3, 1]).length = max 2 2 := by
  have h := C8_broadcast_output_shape [1, 3] [3, 1] (by decide) (by decide)
  exact ⟨h.2, h.1⟩

/-- C9: `Mercenary::routine` always returns `Ok(())`: the handler results
are joined and discarded, so no handler error propagates to the caller. -/
theorem C9_routine_always_ok (E : Type) (r1 r2 : Except E Unit) :
    mercenaryRoutine r1 r2 = Except.ok () ∧
    ∀ e1 e2 : E, mercenaryRoutine (Except.error e1) (Except.error e2) =
      Except.ok () :=
  ⟨rfl, fun _ _ => rfl⟩

/-- C10: `TensorType::from(u32)` yields `I32` for values fitting in an
`i32` and panics with "Unsigned integers are not supported" otherwise;
`from(i32)` always yields `I32` and `from(f32)` always yields `F32`. -/
theorem C10_tensortype_conversions (value : Nat) :
    (value ≤ 2147483647 →
      tensorTypeFromU32 value = Except.ok TensorType.I32) ∧
    (2147483647 < value →
      tensorTypeFromU32 value =
        Except.error "Unsigned integers are not supported") ∧
    (∀ i : Int, tensorTypeFromI32 i = TensorType.I32) ∧
    (∀ f : F32Value, tensorTypeFromF32 f = TensorType.F32) := by
  refine ⟨fun h => ?_, fun h => ?_, fun _ => rfl, fun _ => rfl⟩
  · simp [tensorTypeFromU32, h]
  · simp only [tensorTypeFromU32, ite_eq_right_iff]
    intro hle
    omega

/-- C10 (witness): `i32::MAX` converts to `I32`; `i32::MAX + 1` panics. -/
theorem C10_witness :
    tensorTypeFromU32 2147483647 = Except.ok TensorType.I32 ∧
    tensorTypeFromU32 2147483648 =
      Except.error "Unsigned integers are not supported" :=
  ⟨(C10_tensortype_conversions 2147483647).1 (by decide),
   (C10_tensortype_conversions 2147483648).2.1 (by decide)⟩

end DTensor
